import Mathlib

/-!
# Nightlife backend (`src/api/index.js`): store model and route handlers

A shallow embedding of the Express handlers of `src/api/index.js` over an explicit
model of the PostgreSQL store they talk to.

* The three tables `users`, `venues`, `users_venues` are lists of rows.  Columns that
  receive a request-body value directly (`venue_yelp_id`, `users_venues.user_id`) are
  nullable, because node-postgres sends `undefined` as SQL `NULL`.
* Generated keys come from sequences, which PostgreSQL never rolls back.
* Every SQL statement can be rejected by the storage engine; which ones are rejected is
  an input of each handler (`Faults`).  A rejected statement has no effect.
* `BEGIN` / `COMMIT` / `ROLLBACK` act on a working copy of the tables.
* `res.json` sends the response the first time it is called and throws
  `ERR_HTTP_HEADERS_SENT` afterwards.
* Request bodies are typed: an external venue id is a string or missing, a user id is a
  number or missing.  `bcrypt` is an external primitive known by its contract.
* A transaction left open on a released client is never committed.
-/

namespace Nightlife

/-! ## Data model -/

/-- Modelled from the spec: the schema of table `users` is not in the source; section 3
gives a generated unique `user_id`, a `username` and a `password_hash`.  The only writer,
`insertNewUserIntoDb`, always stores a hash. -/
structure UserRow where
  user_id : Nat
  username : String
  password_hash : String
deriving DecidableEq, Repr

/-- Modelled from the spec: the schema of table `venues` is not in the source; section 3
gives a generated unique `venue_id` and the external `venue_yelp_id`, which is nullable here
because the add handler can send `undefined`. -/
structure VenueRow where
  venue_id : Nat
  venue_yelp_id : Option String
deriving DecidableEq, Repr

/-- Modelled from the spec: the schema of table `users_venues` is not in the source;
section 3 gives the pair `user_id`, `venue_id` with no uniqueness enforced by the store. -/
structure UserVenueRow where
  user_id : Option Nat
  venue_id : Nat
deriving DecidableEq, Repr

/-- The three tables the handlers read and write. -/
structure Tables where
  users : List UserRow
  venues : List VenueRow
  users_venues : List UserVenueRow
deriving DecidableEq, Repr

/-- Committed store: the tables and the two key sequences (next value to hand out). -/
structure Db where
  tables : Tables
  users_seq : Nat
  venues_seq : Nat
deriving DecidableEq, Repr

/-- The SQL statements (and the pool checkout) issued by `index.js`. -/
inductive Stmt
  | connect
  | begin
  | commit
  | rollback
  | selectUserByUsername
  | insertUser
  | selectVenueByYelpId
  | insertVenue
  | insertUsersVenues
  | deleteUsersVenues
  | countUsersVenues
  | selectVenuesAttending
deriving DecidableEq, Repr

/-- Which statements the storage engine rejects during one request. -/
abbrev Faults := Stmt → Bool

/-- The storage engine executes every statement. -/
def noFaults : Faults := fun _ => false

/-- Values thrown inside a handler. -/
inductive JsError
  | storage (s : Stmt)
  | typeError
  | headersSent
deriving DecidableEq, Repr

/-- JSON payloads produced by the handlers. -/
inductive Payload
  | message (text : String)
  | error (text : String)
  | loggedOut
  | err (e : JsError)
  | loggedIn (userId : Nat) (username : String) (venuesAttendingIds : List (Option String))
  | insertSuccessful (message : String)
  | insertFailed (error : JsError)
  | removeSuccessful (message : String)
  | removeFailed (error : JsError)
  | countAttendees (attendingCount : Nat)
  | countFailed (error : JsError)
deriving DecidableEq, Repr

/-- What reaches the client: HTTP status and JSON body. -/
structure Response where
  status : Nat
  body : Payload
deriving DecidableEq, Repr

/-! ## SQL over the tables -/

/-- SQL `=`: never true when either side is `NULL`. -/
def sqlEq {α : Type} [DecidableEq α] : Option α → Option α → Bool
  | some a, some b => decide (a = b)
  | _, _ => false

/-- Statement `SELECT * FROM users WHERE username = $1`. -/
def Tables.selectUserByUsername (t : Tables) (username : String) : List UserRow :=
  t.users.filter (fun r => decide (r.username = username))

/-- Statement `SELECT venue_id FROM venues WHERE venue_yelp_id = $1`. -/
def Tables.selectVenueByYelpId (t : Tables) (yelpId : Option String) : List Nat :=
  (t.venues.filter (fun v => sqlEq v.venue_yelp_id yelpId)).map (fun v => v.venue_id)

/-- Statement `SELECT COUNT(*) FROM users_venues WHERE venue_id = $1`. -/
def Tables.countUsersVenues (t : Tables) (venueId : Nat) : Nat :=
  (t.users_venues.filter (fun r => decide (r.venue_id = venueId))).length

/-- Statement `INSERT INTO users (username, password_hash) VALUES ($1, $2)` with the generated key. -/
def Tables.insertUser (t : Tables) (row : UserRow) : Tables :=
  { t with users := t.users ++ [row] }

/-- Statement `INSERT INTO venues (venue_yelp_id) VALUES ($1)` with the generated key. -/
def Tables.insertVenue (t : Tables) (row : VenueRow) : Tables :=
  { t with venues := t.venues ++ [row] }

/-- Statement `INSERT INTO users_venues (user_id, venue_id) VALUES ($1, $2)`: no check for an
existing pair. -/
def Tables.insertUsersVenues (t : Tables) (userId : Option Nat) (venueId : Nat) : Tables :=
  { t with users_venues := t.users_venues ++ [⟨userId, venueId⟩] }

/-- Statement `DELETE FROM users_venues WHERE user_id = $1 AND venue_id = $2`. -/
def Tables.deleteUsersVenues (t : Tables) (userId : Option Nat) (venueId : Nat) : Tables :=
  { t with users_venues :=
      t.users_venues.filter (fun r => !(sqlEq r.user_id userId && decide (r.venue_id = venueId))) }

/-- Statement `SELECT venue_yelp_id FROM venues JOIN users_venues ON venues.venue_id =
users_venues.venue_id WHERE users_venues.user_id = $1`. -/
def Tables.selectVenuesAttending (t : Tables) (userId : Option Nat) : List (Option String) :=
  t.venues.flatMap (fun v =>
    (t.users_venues.filter
      (fun r => decide (v.venue_id = r.venue_id) && sqlEq r.user_id userId)).map
      (fun _ => v.venue_yelp_id))

/-! ## Handler monad: one request against the store -/

/-- State of one request: committed store, open transaction, response sent so far. -/
structure World where
  db : Db
  txn : Option Tables
  sent : Option Response
deriving DecidableEq, Repr

/-- A JavaScript computation: runs on the world, returns or throws. -/
def Js (α : Type) : Type := World → Except JsError α × World

/-- Return a value. -/
def Js.pure {α : Type} (a : α) : Js α := fun w => (.ok a, w)

/-- Sequencing (`await`). -/
def Js.bind {α β : Type} (m : Js α) (k : α → Js β) : Js β := fun w =>
  match m w with
  | (.ok a, w1) => k a w1
  | (.error e, w1) => (.error e, w1)

/-- Throw a value. -/
def Js.throw {α : Type} (e : JsError) : Js α := fun w => (.error e, w)

/-- Block `try body catch (error) handler`. -/
def Js.tryCatch {α : Type} (body : Js α) (handler : JsError → Js α) : Js α := fun w =>
  match body w with
  | (.ok a, w1) => (.ok a, w1)
  | (.error e, w1) => handler e w1

instance : Monad Js where
  pure := Js.pure
  bind := Js.bind

/-- Tables a statement sees: the open transaction, else the committed tables. -/
def World.cur (w : World) : Tables := w.txn.getD w.db.tables

/-- Install the tables written by a statement: into the open transaction, else committed at
once (autocommit). -/
def World.write (w : World) (t : Tables) : World :=
  match w.txn with
  | some _ => { w with txn := some t }
  | none => { w with db := { w.db with tables := t } }

/-- Call `res.status(code).json(body)`: the first call sends, a later one throws. -/
def resJson (status : Nat) (body : Payload) : Js Unit := fun w =>
  match w.sent with
  | none => (.ok (), { w with sent := some ⟨status, body⟩ })
  | some _ => (.error .headersSent, w)

/-- Call `pool.connect()`. -/
def connect (f : Faults) : Js Unit := fun w =>
  if f .connect then (.error (.storage .connect), w) else (.ok (), w)

/-- Statement `BEGIN`. -/
def sqlBegin (f : Faults) : Js Unit := fun w =>
  if f .begin then (.error (.storage .begin), w)
  else (.ok (), match w.txn with
    | none => { w with txn := some w.db.tables }
    | some _ => w)

/-- Statement `COMMIT`: the working copy becomes the committed tables. -/
def sqlCommit (f : Faults) : Js Unit := fun w =>
  if f .commit then (.error (.storage .commit), w)
  else (.ok (), match w.txn with
    | some t => { w with db := { w.db with tables := t }, txn := none }
    | none => w)

/-- Statement `ROLLBACK`: the working copy is dropped. -/
def sqlRollback (f : Faults) : Js Unit := fun w =>
  if f .rollback then (.error (.storage .rollback), w)
  else (.ok (), { w with txn := none })

/-- Run `SELECT * FROM users WHERE username = $1`. -/
def selectUserByUsername (f : Faults) (username : String) : Js (List UserRow) := fun w =>
  if f .selectUserByUsername then (.error (.storage .selectUserByUsername), w)
  else (.ok (w.cur.selectUserByUsername username), w)

/-- Run `INSERT INTO users (username, password_hash) VALUES ($1, $2) RETURNING *`. -/
def insertUser (f : Faults) (username hash : String) : Js UserRow := fun w =>
  if f .insertUser then (.error (.storage .insertUser), w)
  else
    let row : UserRow := ⟨w.db.users_seq, username, hash⟩
    let w1 := w.write (w.cur.insertUser row)
    (.ok row, { w1 with db := { w1.db with users_seq := w.db.users_seq + 1 } })

/-- Run `SELECT venue_id FROM venues WHERE venue_yelp_id = $1`. -/
def selectVenueByYelpId (f : Faults) (yelpId : Option String) : Js (List Nat) := fun w =>
  if f .selectVenueByYelpId then (.error (.storage .selectVenueByYelpId), w)
  else (.ok (w.cur.selectVenueByYelpId yelpId), w)

/-- Run `INSERT INTO venues (venue_yelp_id) VALUES ($1) RETURNING venue_id`. -/
def insertVenue (f : Faults) (yelpId : Option String) : Js (List Nat) := fun w =>
  if f .insertVenue then (.error (.storage .insertVenue), w)
  else
    let row : VenueRow := ⟨w.db.venues_seq, yelpId⟩
    let w1 := w.write (w.cur.insertVenue row)
    (.ok [row.venue_id], { w1 with db := { w1.db with venues_seq := w.db.venues_seq + 1 } })

/-- Run `INSERT INTO users_venues (user_id, venue_id) VALUES ($1, $2)`. -/
def insertUsersVenues (f : Faults) (userId : Option Nat) (venueId : Nat) : Js Unit := fun w =>
  if f .insertUsersVenues then (.error (.storage .insertUsersVenues), w)
  else (.ok (), w.write (w.cur.insertUsersVenues userId venueId))

/-- Run `DELETE FROM users_venues WHERE user_id = $1 AND venue_id = $2`. -/
def deleteUsersVenues (f : Faults) (userId : Option Nat) (venueId : Nat) : Js Unit := fun w =>
  if f .deleteUsersVenues then (.error (.storage .deleteUsersVenues), w)
  else (.ok (), w.write (w.cur.deleteUsersVenues userId venueId))

/-- Run `SELECT COUNT(*) FROM users_venues WHERE venue_id = $1`. -/
def countUsersVenues (f : Faults) (venueId : Nat) : Js Nat := fun w =>
  if f .countUsersVenues then (.error (.storage .countUsersVenues), w)
  else (.ok (w.cur.countUsersVenues venueId), w)

/-- Read `rows[0].field` of a query result: a `TypeError` when there is no row. -/
def firstRow {α : Type} (rows : List α) : Js α :=
  match rows with
  | r :: _ => Js.pure r
  | [] => Js.throw .typeError

/-- What a handler leaves behind: committed store, response sent, uncaught throw. -/
structure Outcome where
  db : Db
  sent : Option Response
  thrown : Option JsError
deriving DecidableEq, Repr

/-- Run a handler on a committed store with a fresh response object. -/
def Js.run (h : Js Unit) (db : Db) : Outcome :=
  match h ⟨db, none, none⟩ with
  | (.ok _, w) => ⟨w.db, w.sent, none⟩
  | (.error e, w) => ⟨w.db, w.sent, some e⟩

/-! ## Requests -/

/-- Body of `POST /api/venues-attending` and `POST /api/venue-remove`. -/
structure AttendBody where
  venueYelpId : Option String
  userId : Option Nat
deriving DecidableEq, Repr

/-- JavaScript truthiness of a string-or-undefined value. -/
def truthyStr : Option String → Bool
  | some s => s != ""
  | none => false

/-- JavaScript truthiness of a number-or-undefined value. -/
def truthyNum : Option Nat → Bool
  | some n => n != 0
  | none => false

/-- Template-literal rendering of a string-or-undefined value. -/
def jsStr : Option String → String
  | some s => s
  | none => "undefined"

/-- Payload of the login guard. -/
def pleaseLogin : Payload :=
  .message "Please login before attempting to access this route."

/-- Payload of the missing-data guard. -/
def dataNotReceived : Payload :=
  .error "Error adding venue to plans. Venue and/or user data not received correctly. Try refreshing the page and searching again, or else log in again."

/-! ## `POST /api/venues-attending` -/

/-- Statement `if (c) { m }` without an else branch. -/
def Js.when (c : Bool) (m : Js Unit) : Js Unit :=
  if c then m else Js.pure ()

/-- The `try` block of `app.post("/api/venues-attending")`. -/
def addAttendanceTry (f : Faults) (receivedVenueYelpId : Option String)
    (receivedUserId : Option Nat) : Js Unit := do
  sqlBegin f
  let receivedVenueDbId ← selectVenueByYelpId f receivedVenueYelpId
  let venue_id ←
    (if receivedVenueDbId.length = 1 then
      firstRow receivedVenueDbId
    else do
      let insertNewVenue ← insertVenue f receivedVenueYelpId
      firstRow insertNewVenue)
  insertUsersVenues f receivedUserId venue_id
  sqlCommit f
  resJson 200 (.insertSuccessful
    ("Successfully inserted venue with id " ++ jsStr receivedVenueYelpId ++ " into database"))

/-- The `catch (error)` block of `app.post("/api/venues-attending")`. -/
def addAttendanceCatch (f : Faults) (error : JsError) : Js Unit := do
  sqlRollback f
  resJson 200 (.insertFailed error)

/-- Handler of `app.post("/api/venues-attending")`; `auth` is `req.isAuthenticated()`.
Neither guard returns, so the handler goes on after sending their message. -/
def addAttendance (f : Faults) (auth : Bool) (body : AttendBody) : Js Unit := do
  Js.when (!auth) (resJson 200 pleaseLogin)
  let receivedVenueYelpId := body.venueYelpId
  let receivedUserId := body.userId
  Js.when (!truthyStr receivedVenueYelpId || !truthyNum receivedUserId)
    (resJson 200 dataNotReceived)
  connect f
  Js.tryCatch (addAttendanceTry f receivedVenueYelpId receivedUserId) (addAttendanceCatch f)

/-! ## `POST /api/venue-remove` -/

/-- The `try` block of `app.post("/api/venue-remove")`. -/
def removeAttendanceTry (f : Faults) (receivedVenueYelpId : Option String)
    (receivedUserId : Option Nat) : Js Unit := do
  sqlBegin f
  let receivedVenueDbId ← selectVenueByYelpId f receivedVenueYelpId
  let venue_id ← firstRow receivedVenueDbId
  deleteUsersVenues f receivedUserId venue_id
  sqlCommit f
  resJson 200 (.removeSuccessful
    ("Successfully removed venue with id " ++ jsStr receivedVenueYelpId ++ " from database"))

/-- The `catch (error)` block of `app.post("/api/venue-remove")`. -/
def removeAttendanceCatch (f : Faults) (error : JsError) : Js Unit := do
  sqlRollback f
  resJson 200 (.removeFailed error)

/-- Handler of `app.post("/api/venue-remove")`.  The login guard does not return; the
missing-data guard does. -/
def removeAttendance (f : Faults) (auth : Bool) (body : AttendBody) : Js Unit := do
  Js.when (!auth) (resJson 200 pleaseLogin)
  let receivedVenueYelpId := body.venueYelpId
  let receivedUserId := body.userId
  if !truthyStr receivedVenueYelpId || !truthyNum receivedUserId then
    resJson 200 dataNotReceived
  else do
    connect f
    Js.tryCatch (removeAttendanceTry f receivedVenueYelpId receivedUserId)
      (removeAttendanceCatch f)

/-! ## `GET /api/number-attending/:yelpId` -/

/-- The `try` block of `app.get("/api/number-attending/:yelpId")`.  The count comes back
from `COUNT(*)`; `count || 0` leaves it as it is. -/
def countAttendeesTry (f : Faults) (yelpId : String) : Js Unit := do
  sqlBegin f
  let result ← selectVenueByYelpId f (some yelpId)
  let venue_id ← firstRow result
  let attendingCount ← countUsersVenues f venue_id
  sqlCommit f
  resJson 200 (.countAttendees (if attendingCount != 0 then attendingCount else 0))

/-- The `catch (error)` block of `app.get("/api/number-attending/:yelpId")`. -/
def countAttendeesCatch (f : Faults) (error : JsError) : Js Unit := do
  sqlRollback f
  resJson 200 (.countFailed error)

/-- Handler of `app.get("/api/number-attending/:yelpId")`. -/
def countAttendees (f : Faults) (auth : Bool) (yelpId : String) : Js Unit := do
  Js.when (!auth) (resJson 200 pleaseLogin)
  connect f
  Js.tryCatch (countAttendeesTry f yelpId) (countAttendeesCatch f)

/-! ## Credential store and the passport strategies -/

/-- Contract of the external `bcrypt` primitive: `compareSync` accepts a plaintext against
the hash `hashSync` made of it (the salt drawn by `hashSync` is part of the instance). -/
structure Bcrypt where
  hashSync : String → Nat → String
  compareSync : String → String → Bool
  compare_hash : ∀ (password : String) (rounds : Nat),
    compareSync password (hashSync password rounds) = true

/-- Run `SELECT venue_yelp_id FROM venues JOIN users_venues ...` through `pool.query`. -/
def getVenuesAttendingIds (f : Faults) (db : Db) (userId : Option Nat) :
    Except JsError (List (Option String)) :=
  if f .selectVenuesAttending then .error (.storage .selectVenuesAttending)
  else .ok (db.tables.selectVenuesAttending userId)

/-- Helper `insertNewUserIntoDb(username, password)`: the inserted row, or `undefined`
when the insert is rejected (the error is only logged). -/
def insertNewUserIntoDb (f : Faults) (B : Bcrypt) (username password : String) :
    Js (Option UserRow) :=
  let hashed_password := B.hashSync password 12
  Js.tryCatch
    (do
      let row ← insertUser f username hashed_password
      pure (some row))
    (fun _ => pure none)

/-- The authenticated-user handle kept in the session (`req.user`): a `users` row, or the
whole query result object. -/
inductive SessionUser
  | row (user : UserRow)
  | result (rows : List UserRow)
deriving DecidableEq, Repr

/-- How a strategy calls `done`. -/
inductive Done
  | error (e : JsError)
  | reject
  | accept (user : SessionUser)
deriving DecidableEq, Repr

/-- Verify callback of the `local` strategy. -/
def localVerify (f : Faults) (B : Bcrypt) (db : Db) (username password : String) : Done :=
  if f .selectUserByUsername then .error (.storage .selectUserByUsername)
  else
    match db.tables.selectUserByUsername username with
    | [] => .reject
    | user :: _ =>
      if !B.compareSync password user.password_hash then .reject
      else .accept (.row user)

/-- Verify callback of the `github` strategy; `profileUsername` is `profile.username`.
A first login inserts a user whose password is the username; a later login passes the
query result object itself to `done`. -/
def githubVerify (f : Faults) (B : Bcrypt) (profileUsername : String) : Js Done := do
  let userDbObj ← selectUserByUsername f profileUsername
  match userDbObj with
  | [] =>
    let dbUser ← insertNewUserIntoDb f B profileUsername profileUsername
    match dbUser with
    | some user => pure (.accept (.row user))
    | none => pure .reject
  | _ :: _ => pure (.accept (.result userDbObj))

/-- Run a computation that returns a value on a committed store. -/
def Js.eval {α : Type} (m : Js α) (db : Db) : Except JsError α × Db :=
  ((m ⟨db, none, none⟩).1, (m ⟨db, none, none⟩).2.db)

/-- Body of `POST /api/register`. -/
structure RegisterBody where
  username : Option String
  password : Option String
deriving DecidableEq, Repr

/-- Handler of `app.post("/api/register")`. -/
def register (f : Faults) (B : Bcrypt) (body : RegisterBody) : Js Unit :=
  match body.username, body.password with
  | some username, some password =>
    if username == "" || password == "" then
      resJson 400 (.error "Both username and password are required")
    else do
      let result ← selectUserByUsername f username
      match result with
      | _ :: _ => resJson 200 (.error "Please select another username")
      | [] =>
        let dbUser ← insertNewUserIntoDb f B username password
        match dbUser with
        | some _ => resJson 201 (.message "User created successfully")
        | none => resJson 500 (.error "Internal server error")
  | _, _ => resJson 400 (.error "Both username and password are required")

/-! ## `GET /api/current-session` -/

/-- Expression `req.user.user_id`: `undefined` on a query result object. -/
def SessionUser.user_id : SessionUser → Option Nat
  | .row user => some user.user_id
  | .result _ => none

/-- Expression `req.user.user_id || req.user.rows[0].user_id`. -/
def SessionUser.userIdOrFirstRow : SessionUser → Js Nat
  | .row user => if user.user_id != 0 then Js.pure user.user_id else Js.throw .typeError
  | .result rows => Js.bind (firstRow rows) (fun r => Js.pure r.user_id)

/-- Expression `req.user.username || req.user.rows[0].username`. -/
def SessionUser.usernameOrFirstRow : SessionUser → Js String
  | .row user => if user.username != "" then Js.pure user.username else Js.throw .typeError
  | .result rows => Js.bind (firstRow rows) (fun r => Js.pure r.username)

/-- Handler of `app.get("/api/current-session")`; `reqUser` is `req.user`, present exactly
when `req.isAuthenticated()`. -/
def currentSession (f : Faults) (reqUser : Option SessionUser) : Js Unit := fun w =>
  match reqUser with
  | none => resJson 200 .loggedOut w
  | some user =>
    match getVenuesAttendingIds f w.db user.user_id with
    | .error err => resJson 200 (.err err) w
    | .ok venuesAttendingIds =>
      (do
        let userId ← user.userIdOrFirstRow
        let username ← user.usernameOrFirstRow
        resJson 200 (.loggedIn userId username venuesAttendingIds)) w

/-! ## `POST /api/yelp-data/:location` -/

/-- A JSON value as far as `switch (searchPrice)` tells them apart. -/
inductive JsVal
  | undefined
  | null
  | bool (b : Bool)
  | int (n : Int)
  | otherNumber
  | str (s : String)
  | object
deriving DecidableEq, Repr

/-- The `switch (searchPrice)` of `app.post("/api/yelp-data/:location")`. -/
def updatedSearchPrice (searchPrice : JsVal) : String :=
  match searchPrice with
  | .int 1 => "&price=1"
  | .int 2 => "&price=1&price=2"
  | .int 3 => "&price=1&price=2&price=3"
  | _ => "&price=1&price=2&price=3&price=4"

/-- The upstream search URL; the other body fields are given as the template literal
renders them. -/
def yelpSearchUrl (locationSearchTerm searchOffset searchIsOpenNow searchSortBy : String)
    (searchPrice : JsVal) : String :=
  "https://api.yelp.com/v3/businesses/search?location=" ++ locationSearchTerm ++
    updatedSearchPrice searchPrice ++ "&open_now=" ++ searchIsOpenNow ++ "&sort_by=" ++
    searchSortBy ++ "&limit=5&offset=" ++ searchOffset

/-! ## Vocabulary of the properties -/

/-- Query-string rendering of a list of price levels. -/
def priceQuery (levels : List Nat) : String :=
  String.join (levels.map (fun n => "&price=" ++ toString n))

/-- Rows of `users_venues` pairing user `u` with a venue whose `venue_yelp_id` is `v`. -/
def Tables.attendanceRows (t : Tables) (u : Nat) (v : String) : List UserVenueRow :=
  t.users_venues.filter (fun r =>
    decide (r.user_id = some u) &&
      t.venues.any (fun vn => decide (vn.venue_id = r.venue_id) &&
        decide (vn.venue_yelp_id = some v)))

/-- Some statement issued by the `try` block of `POST /api/venues-attending` is rejected
(`INSERT INTO venues` is issued only when the lookup did not return exactly one row). -/
def addRejected (f : Faults) (db : Db) (yelpId : Option String) : Bool :=
  f .begin || f .selectVenueByYelpId ||
    (decide ((db.tables.selectVenueByYelpId yelpId).length ≠ 1) && f .insertVenue) ||
    f .insertUsersVenues || f .commit

/-- The store `POST /api/venues-attending` commits when no statement is rejected. -/
def Db.afterAdd (db : Db) (yelpId : Option String) (userId : Option Nat) : Db :=
  match db.tables.selectVenueByYelpId yelpId with
  | [vid] => { db with tables := db.tables.insertUsersVenues userId vid }
  | _ =>
    { db with
      tables := (db.tables.insertVenue ⟨db.venues_seq, yelpId⟩).insertUsersVenues userId
        db.venues_seq,
      venues_seq := db.venues_seq + 1 }

/-- The part of `POST /api/venues-attending` after the two guards: connection checkout and
the `try` / `catch` statement. -/
def addAttendanceCore (f : Faults) (yelpId : Option String) (userId : Option Nat) : Js Unit :=
  Js.bind (connect f) (fun _ =>
    Js.tryCatch (addAttendanceTry f yelpId userId) (addAttendanceCatch f))

/-- The part of `POST /api/venue-remove` after the two guards. -/
def removeAttendanceCore (f : Faults) (yelpId : Option String) (userId : Option Nat) :
    Js Unit :=
  Js.bind (connect f) (fun _ =>
    Js.tryCatch (removeAttendanceTry f yelpId userId) (removeAttendanceCatch f))

/-- Every stored venue key was handed out by the sequence. -/
def Db.KeysIssued (db : Db) : Prop :=
  (∀ vn ∈ db.tables.venues, vn.venue_id < db.venues_seq) ∧
    (∀ r ∈ db.tables.users_venues, r.venue_id < db.venues_seq)

/-- Modelled from the spec: the data-model invariants of section 3 for the venue directory,
which the missing schema is expected to keep: keys issued by the sequence, unique
`venue_id`, unique `venue_yelp_id` (SQL uniqueness: `NULL`s do not clash). -/
def Db.WF (db : Db) : Prop :=
  db.KeysIssued ∧
    (db.tables.venues.map (fun vn => vn.venue_id)).Nodup ∧
    db.tables.venues.Pairwise (fun a b => sqlEq a.venue_yelp_id b.venue_yelp_id = false)

instance (db : Db) : Decidable db.KeysIssued := by
  unfold Db.KeysIssued
  infer_instance

instance (db : Db) : Decidable db.WF := by
  unfold Db.WF
  infer_instance

/-- The empty store. -/
def emptyDb : Db := ⟨⟨[], [], []⟩, 1, 1⟩

/-- A store where user 1 (`alice`) attends venue `biz-1`. -/
def aliceDb : Db :=
  ⟨⟨[⟨1, "alice", "hash"⟩], [⟨1, some "biz-1"⟩], [⟨some 1, 1⟩]⟩, 2, 2⟩

/-- An instance of the `bcrypt` contract that is easy to evaluate. -/
def tagBcrypt : Bcrypt where
  hashSync := fun password _ => "$2b$" ++ password
  compareSync := fun password hash => decide (hash = "$2b$" ++ password)
  compare_hash := by intro password rounds; simp

/-! ## Evaluation of the handlers -/

theorem resJson_none (st : Nat) (p : Payload) (db : Db) (txn : Option Tables) :
    resJson st p ⟨db, txn, none⟩ = (.ok (), ⟨db, txn, some ⟨st, p⟩⟩) := rfl

theorem resJson_some (st : Nat) (p : Payload) (db : Db) (txn : Option Tables) (r : Response) :
    resJson st p ⟨db, txn, some r⟩ = (.error .headersSent, ⟨db, txn, some r⟩) := rfl

theorem addAttendanceTry_eval (f : Faults) (y : Option String) (u : Option Nat) (db : Db)
    (s : Option Response) :
    addAttendanceTry f y u ⟨db, none, s⟩ =
      if f .begin = true then (.error (.storage .begin), ⟨db, none, s⟩)
      else if f .selectVenueByYelpId = true then
        (.error (.storage .selectVenueByYelpId), ⟨db, some db.tables, s⟩)
      else match db.tables.selectVenueByYelpId y with
        | [vid] =>
          if f .insertUsersVenues = true then
            (.error (.storage .insertUsersVenues), ⟨db, some db.tables, s⟩)
          else if f .commit = true then
            (.error (.storage .commit), ⟨db, some (db.tables.insertUsersVenues u vid), s⟩)
          else
            resJson 200 (.insertSuccessful
                ("Successfully inserted venue with id " ++ jsStr y ++ " into database"))
              ⟨{ db with tables := db.tables.insertUsersVenues u vid }, none, s⟩
        | _ =>
          if f .insertVenue = true then
            (.error (.storage .insertVenue), ⟨db, some db.tables, s⟩)
          else if f .insertUsersVenues = true then
            (.error (.storage .insertUsersVenues),
              ⟨{ db with venues_seq := db.venues_seq + 1 },
                some (db.tables.insertVenue ⟨db.venues_seq, y⟩), s⟩)
          else if f .commit = true then
            (.error (.storage .commit),
              ⟨{ db with venues_seq := db.venues_seq + 1 },
                some ((db.tables.insertVenue ⟨db.venues_seq, y⟩).insertUsersVenues u
                  db.venues_seq), s⟩)
          else
            resJson 200 (.insertSuccessful
                ("Successfully inserted venue with id " ++ jsStr y ++ " into database"))
              ⟨{ db with
                  tables := (db.tables.insertVenue ⟨db.venues_seq, y⟩).insertUsersVenues u
                    db.venues_seq,
                  venues_seq := db.venues_seq + 1 }, none, s⟩ := by
  rcases hl : db.tables.selectVenueByYelpId y with _ | ⟨a, _ | ⟨b, l⟩⟩ <;>
    cases hb : f .begin <;> cases hs : f .selectVenueByYelpId <;> cases hv : f .insertVenue <;>
    cases hu : f .insertUsersVenues <;> cases hc : f .commit <;>
    simp [addAttendanceTry, bind, Js.bind, sqlBegin, sqlCommit, selectVenueByYelpId,
      insertVenue, insertUsersVenues, firstRow, Js.pure, Js.throw, World.cur, World.write,
      hl, hb, hs, hv, hu, hc]

theorem addAttendanceCatch_eval (f : Faults) (e : JsError) (w : World) :
    addAttendanceCatch f e w =
      if f .rollback = true then (.error (.storage .rollback), w)
      else resJson 200 (.insertFailed e) { w with txn := none } := by
  cases hr : f .rollback <;> simp [addAttendanceCatch, bind, Js.bind, sqlRollback, hr]

/-- A rejected statement of the `try` block: it throws before `COMMIT` took effect, and
what it leaves behind does not depend on the response sent so far. -/
theorem addAttendanceTry_rejected (f : Faults) (y : Option String) (u : Option Nat) (db : Db)
    (h : addRejected f db y = true) :
    ∃ st db1 txn1, (db1.tables = db.tables ∧ db.venues_seq ≤ db1.venues_seq) ∧
      ∀ s : Option Response,
      addAttendanceTry f y u ⟨db, none, s⟩ = (.error (.storage st), ⟨db1, txn1, s⟩) := by
  unfold addRejected at h
  by_cases hb : f .begin = true
  · exact ⟨.begin, db, none, ⟨rfl, Nat.le_refl _⟩, fun s => by rw [addAttendanceTry_eval]; simp [hb]⟩
  by_cases hs : f .selectVenueByYelpId = true
  · exact ⟨.selectVenueByYelpId, db, some db.tables, ⟨rfl, Nat.le_refl _⟩, fun s => by
      rw [addAttendanceTry_eval]; simp [hb, hs]⟩
  by_cases hl : ∃ a, db.tables.selectVenueByYelpId y = [a]
  · obtain ⟨a, hl⟩ := hl
    by_cases hu : f .insertUsersVenues = true
    · exact ⟨.insertUsersVenues, db, some db.tables, ⟨rfl, Nat.le_refl _⟩, fun s => by
        rw [addAttendanceTry_eval]; simp [hb, hs, hl, hu]⟩
    by_cases hc : f .commit = true
    · exact ⟨.commit, db, some (db.tables.insertUsersVenues u a), ⟨rfl, Nat.le_refl _⟩,
        fun s => by
        rw [addAttendanceTry_eval]; simp [hb, hs, hl, hu, hc]⟩
    exfalso
    simp_all
  · have hne : ∀ s : Option Response,
        addAttendanceTry f y u ⟨db, none, s⟩ =
          if f .insertVenue = true then
            (.error (.storage .insertVenue), ⟨db, some db.tables, s⟩)
          else if f .insertUsersVenues = true then
            (.error (.storage .insertUsersVenues),
              ⟨{ db with venues_seq := db.venues_seq + 1 },
                some (db.tables.insertVenue ⟨db.venues_seq, y⟩), s⟩)
          else if f .commit = true then
            (.error (.storage .commit),
              ⟨{ db with venues_seq := db.venues_seq + 1 },
                some ((db.tables.insertVenue ⟨db.venues_seq, y⟩).insertUsersVenues u
                  db.venues_seq), s⟩)
          else
            resJson 200 (.insertSuccessful
                ("Successfully inserted venue with id " ++ jsStr y ++ " into database"))
              ⟨{ db with
                  tables := (db.tables.insertVenue ⟨db.venues_seq, y⟩).insertUsersVenues u
                    db.venues_seq,
                  venues_seq := db.venues_seq + 1 }, none, s⟩ := by
      intro s
      rw [addAttendanceTry_eval]
      rcases hl2 : db.tables.selectVenueByYelpId y with _ | ⟨a, _ | ⟨b, l⟩⟩
      · simp [hb, hs]
      · exact absurd ⟨a, hl2⟩ hl
      · simp [hb, hs]
    by_cases hv : f .insertVenue = true
    · exact ⟨.insertVenue, db, some db.tables, ⟨rfl, Nat.le_refl _⟩, fun s => by rw [hne]; simp [hv]⟩
    by_cases hu : f .insertUsersVenues = true
    · exact ⟨.insertUsersVenues, { db with venues_seq := db.venues_seq + 1 },
        some (db.tables.insertVenue ⟨db.venues_seq, y⟩), ⟨rfl, Nat.le_succ _⟩, fun s => by
          rw [hne]; simp [hv, hu]⟩
    by_cases hc : f .commit = true
    · exact ⟨.commit, { db with venues_seq := db.venues_seq + 1 },
        some ((db.tables.insertVenue ⟨db.venues_seq, y⟩).insertUsersVenues u db.venues_seq),
        ⟨rfl, Nat.le_succ _⟩, fun s => by rw [hne]; simp [hv, hu, hc]⟩
    exfalso
    simp_all

/-- No rejected statement: the `try` block commits `db.afterAdd` and then responds. -/
theorem addAttendanceTry_committed (f : Faults) (y : Option String) (u : Option Nat) (db : Db)
    (s : Option Response) (h : addRejected f db y = false) :
    addAttendanceTry f y u ⟨db, none, s⟩ =
      resJson 200 (.insertSuccessful
          ("Successfully inserted venue with id " ++ jsStr y ++ " into database"))
        ⟨db.afterAdd y u, none, s⟩ := by
  rw [addAttendanceTry_eval]
  unfold addRejected at h
  unfold Db.afterAdd
  rcases hl : db.tables.selectVenueByYelpId y with _ | ⟨a, _ | ⟨b, l⟩⟩ <;>
    simp only [hl] at h ⊢ <;> split_ifs <;> simp_all

theorem Js.run_db (h : Js Unit) (db : Db) : (h.run db).db = (h ⟨db, none, none⟩).2.db := by
  unfold Js.run
  rcases h ⟨db, none, none⟩ with ⟨_ | _, w⟩ <;> rfl

theorem Js.run_sent (h : Js Unit) (db : Db) :
    (h.run db).sent = (h ⟨db, none, none⟩).2.sent := by
  unfold Js.run
  rcases h ⟨db, none, none⟩ with ⟨_ | _, w⟩ <;> rfl

theorem addAttendance_apply (f : Faults) (auth : Bool) (body : AttendBody) (db : Db) :
    addAttendance f auth body ⟨db, none, none⟩ =
      if auth = true then
        addAttendanceCore f body.venueYelpId body.userId
          ⟨db, none, if (!truthyStr body.venueYelpId || !truthyNum body.userId) = true
            then some ⟨200, dataNotReceived⟩ else none⟩
      else if (!truthyStr body.venueYelpId || !truthyNum body.userId) = true then
        (.error .headersSent, ⟨db, none, some ⟨200, pleaseLogin⟩⟩)
      else
        addAttendanceCore f body.venueYelpId body.userId ⟨db, none, some ⟨200, pleaseLogin⟩⟩ := by
  cases auth <;> cases ht : (!truthyStr body.venueYelpId || !truthyNum body.userId) <;>
    simp [addAttendance, addAttendanceCore, Js.when, bind, Js.bind, Js.pure, resJson, ht]

theorem addAttendanceCore_connect (f : Faults) (y : Option String) (u : Option Nat) (w : World)
    (hc : f .connect = true) :
    addAttendanceCore f y u w = (.error (.storage .connect), w) := by
  simp [addAttendanceCore, Js.bind, connect, hc]

theorem addAttendanceCore_rejected (f : Faults) (y : Option String) (u : Option Nat) (db : Db)
    (hc : f .connect = false) (h : addRejected f db y = true) :
    ∃ db1, (db1.tables = db.tables ∧ db.venues_seq ≤ db1.venues_seq) ∧
      ∀ s : Option Response, ∃ r txn1 s1,
      addAttendanceCore f y u ⟨db, none, s⟩ = (r, ⟨db1, txn1, s1⟩) ∧
      (s1 = s ∨ (s = none ∧ ∃ st, s1 = some ⟨200, .insertFailed (.storage st)⟩)) := by
  obtain ⟨st, db1, txn1, hdb, htry⟩ := addAttendanceTry_rejected f y u db h
  refine ⟨db1, hdb, fun s => ?_⟩
  cases hr : f .rollback <;> cases s <;>
    simp [addAttendanceCore, Js.bind, connect, hc, Js.tryCatch, htry, addAttendanceCatch_eval,
      hr, resJson]
  · exact ⟨_, _, _, ⟨rfl, rfl, rfl⟩, Or.inr ⟨_, rfl⟩⟩
  · exact ⟨_, _, _, ⟨rfl, rfl, rfl⟩, Or.inl rfl⟩

theorem addAttendanceCore_committed_none (f : Faults) (y : Option String) (u : Option Nat)
    (db : Db) (hc : f .connect = false) (h : addRejected f db y = false) :
    addAttendanceCore f y u ⟨db, none, none⟩ =
      (.ok (), ⟨db.afterAdd y u, none, some ⟨200, .insertSuccessful
        ("Successfully inserted venue with id " ++ jsStr y ++ " into database")⟩⟩) := by
  simp [addAttendanceCore, Js.bind, connect, hc, Js.tryCatch, addAttendanceTry_committed, h,
    resJson]

theorem addAttendanceCore_committed_some (f : Faults) (y : Option String) (u : Option Nat)
    (db : Db) (r : Response) (hc : f .connect = false) (h : addRejected f db y = false) :
    ∃ e txn1, addAttendanceCore f y u ⟨db, none, some r⟩ =
      (.error e, ⟨db.afterAdd y u, txn1, some r⟩) := by
  cases hr : f .rollback <;>
    simp [addAttendanceCore, Js.bind, connect, hc, Js.tryCatch, addAttendanceTry_committed, h,
      resJson, addAttendanceCatch_eval, hr]

theorem addAttendanceCore_db_indep (f : Faults) (y : Option String) (u : Option Nat) (db : Db)
    (s : Option Response) :
    (addAttendanceCore f y u ⟨db, none, s⟩).2.db =
      (addAttendanceCore f y u ⟨db, none, none⟩).2.db := by
  cases hc : f .connect
  · cases h : addRejected f db y
    · cases s with
      | none => rfl
      | some r =>
        obtain ⟨e, txn1, he⟩ := addAttendanceCore_committed_some f y u db r hc h
        rw [he, addAttendanceCore_committed_none f y u db hc h]
    · obtain ⟨db1, _, hall⟩ := addAttendanceCore_rejected f y u db hc h
      obtain ⟨r, txn1, s1, h1, _⟩ := hall s
      obtain ⟨r2, txn2, s2, h2, _⟩ := hall none
      rw [h1, h2]
  · simp [addAttendanceCore_connect, hc]

theorem addAttendanceCore_sent_some (f : Faults) (y : Option String) (u : Option Nat) (db : Db)
    (r : Response) :
    (addAttendanceCore f y u ⟨db, none, some r⟩).2.sent = some r := by
  cases hc : f .connect
  · cases h : addRejected f db y
    · obtain ⟨e, txn1, he⟩ := addAttendanceCore_committed_some f y u db r hc h
      rw [he]
    · obtain ⟨db1, _, hall⟩ := addAttendanceCore_rejected f y u db hc h
      obtain ⟨r1, txn1, s1, h1, h2⟩ := hall (some r)
      rw [h1]
      rcases h2 with h2 | ⟨h2, _⟩
      · exact h2
      · cases h2
  · simp [addAttendanceCore_connect, hc]

theorem addAttendanceCore_tables_of_rejected (f : Faults) (y : Option String) (u : Option Nat)
    (db : Db) (s : Option Response) (h : addRejected f db y = true) :
    (addAttendanceCore f y u ⟨db, none, s⟩).2.db.tables = db.tables := by
  cases hc : f .connect
  · obtain ⟨db1, hdb, hall⟩ := addAttendanceCore_rejected f y u db hc h
    obtain ⟨r1, txn1, s1, h1, _⟩ := hall s
    rw [h1]
    exact hdb.1
  · simp [addAttendanceCore_connect, hc]

theorem addAttendanceCore_sent_none (f : Faults) (y : Option String) (u : Option Nat)
    (db : Db) (h : addRejected f db y = false) (e : JsError) :
    (addAttendanceCore f y u ⟨db, none, none⟩).2.sent ≠ some ⟨200, .insertFailed e⟩ := by
  cases hc : f .connect
  · rw [addAttendanceCore_committed_none f y u db hc h]
    simp
  · simp [addAttendanceCore_connect, hc]

/-- C4. `POST /api/venues-attending`: for every store, fault pattern, login state and body,
when a statement of the transaction is rejected (`BEGIN`, the venue lookup, the venue
insert when it is issued, the `users_venues` insert or `COMMIT`), or when the handler answers
`insertSuccessful: false`, the committed tables after the call are the tables before it; a
venue row created in the same call is not kept. -/
theorem addAttendance_failure_rolls_back (f : Faults) (auth : Bool) (db : Db)
    (body : AttendBody)
    (h : (f .begin = true ∨ f .selectVenueByYelpId = true ∨
          ((db.tables.selectVenueByYelpId body.venueYelpId).length ≠ 1 ∧
            f .insertVenue = true) ∨
          f .insertUsersVenues = true ∨ f .commit = true) ∨
        ∃ e, ((addAttendance f auth body).run db).sent = some ⟨200, .insertFailed e⟩) :
    ((addAttendance f auth body).run db).db.tables = db.tables := by
  have hrej : addRejected f db body.venueYelpId = true := by
    rcases h with h | ⟨e, he⟩
    · unfold addRejected
      rcases h with h | h | ⟨h1, h2⟩ | h | h <;> simp [*]
    · by_contra hn
      have hn2 : addRejected f db body.venueYelpId = false := by simpa using hn
      rw [Js.run_sent, addAttendance_apply] at he
      cases auth <;> cases ht : (!truthyStr body.venueYelpId || !truthyNum body.userId) <;>
        simp only [ht, if_true, if_false, Bool.false_eq_true] at he
      · rw [addAttendanceCore_sent_some] at he
        simp [pleaseLogin] at he
      · simp [pleaseLogin] at he
      · exact addAttendanceCore_sent_none f _ _ db hn2 e he
      · rw [addAttendanceCore_sent_some] at he
        simp [dataNotReceived] at he
  rw [Js.run_db, addAttendance_apply]
  split_ifs <;>
    first
      | rfl
      | exact addAttendanceCore_tables_of_rejected f _ _ db _ hrej

/-- C4 witness: on the empty store the `users_venues` insert is rejected after the venue row
for `biz-1` was created in the transaction; nothing is committed. -/
theorem addAttendance_failure_rolls_back_witness :
    ((addAttendance (fun s => decide (s = .insertUsersVenues)) true
        ⟨some "biz-1", some 1⟩).run emptyDb).sent =
        some ⟨200, .insertFailed (.storage .insertUsersVenues)⟩ ∧
      ((addAttendance (fun s => decide (s = .insertUsersVenues)) true
        ⟨some "biz-1", some 1⟩).run emptyDb).db.tables = emptyDb.tables :=
  ⟨by decide,
    addAttendance_failure_rolls_back (fun s => decide (s = .insertUsersVenues)) true emptyDb
      ⟨some "biz-1", some 1⟩ (Or.inl (Or.inr (Or.inr (Or.inr (Or.inl (by decide))))))⟩

theorem removeAttendanceTry_eval (f : Faults) (y : Option String) (u : Option Nat) (db : Db)
    (s : Option Response) :
    removeAttendanceTry f y u ⟨db, none, s⟩ =
      if f .begin = true then (.error (.storage .begin), ⟨db, none, s⟩)
      else if f .selectVenueByYelpId = true then
        (.error (.storage .selectVenueByYelpId), ⟨db, some db.tables, s⟩)
      else match db.tables.selectVenueByYelpId y with
        | [] => (.error .typeError, ⟨db, some db.tables, s⟩)
        | vid :: _ =>
          if f .deleteUsersVenues = true then
            (.error (.storage .deleteUsersVenues), ⟨db, some db.tables, s⟩)
          else if f .commit = true then
            (.error (.storage .commit), ⟨db, some (db.tables.deleteUsersVenues u vid), s⟩)
          else
            resJson 200 (.removeSuccessful
                ("Successfully removed venue with id " ++ jsStr y ++ " from database"))
              ⟨{ db with tables := db.tables.deleteUsersVenues u vid }, none, s⟩ := by
  rcases hl : db.tables.selectVenueByYelpId y with _ | ⟨a, l⟩ <;>
    cases hb : f .begin <;> cases hs : f .selectVenueByYelpId <;>
    cases hu : f .deleteUsersVenues <;> cases hc : f .commit <;>
    simp [removeAttendanceTry, bind, Js.bind, sqlBegin, sqlCommit, selectVenueByYelpId,
      deleteUsersVenues, firstRow, Js.pure, Js.throw, World.cur, World.write,
      hl, hb, hs, hu, hc]

theorem removeAttendanceCatch_eval (f : Faults) (e : JsError) (w : World) :
    removeAttendanceCatch f e w =
      if f .rollback = true then (.error (.storage .rollback), w)
      else resJson 200 (.removeFailed e) { w with txn := none } := by
  cases hr : f .rollback <;> simp [removeAttendanceCatch, bind, Js.bind, sqlRollback, hr]

/-- The `try` block of `POST /api/venue-remove` either throws with the committed store
untouched, or commits the delete for the first venue row found and then responds. -/
theorem removeAttendanceTry_shape (f : Faults) (y : Option String) (u : Option Nat) (db : Db) :
    (∃ e txn1, ∀ s : Option Response,
        removeAttendanceTry f y u ⟨db, none, s⟩ = (.error e, ⟨db, txn1, s⟩)) ∨
    (∃ vid l, db.tables.selectVenueByYelpId y = vid :: l ∧ ∀ s : Option Response,
        removeAttendanceTry f y u ⟨db, none, s⟩ =
          resJson 200 (.removeSuccessful
              ("Successfully removed venue with id " ++ jsStr y ++ " from database"))
            ⟨{ db with tables := db.tables.deleteUsersVenues u vid }, none, s⟩) := by
  by_cases hb : f .begin = true
  · exact Or.inl ⟨.storage .begin, none, fun s => by
      rw [removeAttendanceTry_eval]; simp [hb]⟩
  by_cases hs : f .selectVenueByYelpId = true
  · exact Or.inl ⟨.storage .selectVenueByYelpId, some db.tables, fun s => by
      rw [removeAttendanceTry_eval]; simp [hb, hs]⟩
  rcases hl : db.tables.selectVenueByYelpId y with _ | ⟨a, l⟩
  · exact Or.inl ⟨.typeError, some db.tables, fun s => by
      rw [removeAttendanceTry_eval]; simp [hb, hs, hl]⟩
  by_cases hu : f .deleteUsersVenues = true
  · exact Or.inl ⟨.storage .deleteUsersVenues, some db.tables, fun s => by
      rw [removeAttendanceTry_eval]; simp [hb, hs, hl, hu]⟩
  by_cases hc : f .commit = true
  · exact Or.inl ⟨.storage .commit, some (db.tables.deleteUsersVenues u a), fun s => by
      rw [removeAttendanceTry_eval]; simp [hb, hs, hl, hu, hc]⟩
  exact Or.inr ⟨a, l, rfl, fun s => by
    rw [removeAttendanceTry_eval]; simp [hb, hs, hl, hu, hc]⟩

theorem removeAttendance_apply (f : Faults) (auth : Bool) (body : AttendBody) (db : Db) :
    removeAttendance f auth body ⟨db, none, none⟩ =
      if (!truthyStr body.venueYelpId || !truthyNum body.userId) = true then
        resJson 200 dataNotReceived
          ⟨db, none, if auth = true then none else some ⟨200, pleaseLogin⟩⟩
      else
        removeAttendanceCore f body.venueYelpId body.userId
          ⟨db, none, if auth = true then none else some ⟨200, pleaseLogin⟩⟩ := by
  cases auth <;> cases ht : (!truthyStr body.venueYelpId || !truthyNum body.userId) <;>
    simp [removeAttendance, removeAttendanceCore, Js.when, bind, Js.bind, Js.pure, resJson, ht]

theorem removeAttendanceCore_db_indep (f : Faults) (y : Option String) (u : Option Nat)
    (db : Db) (s : Option Response) :
    (removeAttendanceCore f y u ⟨db, none, s⟩).2.db =
      (removeAttendanceCore f y u ⟨db, none, none⟩).2.db := by
  cases hc : f .connect
  · rcases removeAttendanceTry_shape f y u db with ⟨e, txn1, h⟩ | ⟨vid, l, _, h⟩ <;>
      cases hr : f .rollback <;> cases s <;>
      simp [removeAttendanceCore, Js.bind, connect, hc, Js.tryCatch, h,
        removeAttendanceCatch_eval, hr, resJson]
  · simp [removeAttendanceCore, Js.bind, connect, hc]

theorem removeAttendanceCore_sent_some (f : Faults) (y : Option String) (u : Option Nat)
    (db : Db) (r : Response) :
    (removeAttendanceCore f y u ⟨db, none, some r⟩).2.sent = some r := by
  cases hc : f .connect
  · rcases removeAttendanceTry_shape f y u db with ⟨e, txn1, h⟩ | ⟨vid, l, _, h⟩ <;>
      cases hr : f .rollback <;>
      simp [removeAttendanceCore, Js.bind, connect, hc, Js.tryCatch, h,
        removeAttendanceCatch_eval, hr, resJson]
  · simp [removeAttendanceCore, Js.bind, connect, hc]

/-- C10. For every store, fault pattern and body with both fields non-empty, the store
committed by `POST /api/venues-attending` and by `POST /api/venue-remove` is the same for
an unauthenticated request as for an authenticated one; the unauthenticated request is
answered with the "Please login" message only. -/
theorem unauthenticated_request_still_executes (f : Faults) (db : Db) (body : AttendBody)
    (hv : truthyStr body.venueYelpId = true) (hu : truthyNum body.userId = true) :
    ((addAttendance f false body).run db).db = ((addAttendance f true body).run db).db ∧
      ((addAttendance f false body).run db).sent = some ⟨200, pleaseLogin⟩ ∧
      ((removeAttendance f false body).run db).db =
        ((removeAttendance f true body).run db).db ∧
      ((removeAttendance f false body).run db).sent = some ⟨200, pleaseLogin⟩ := by
  simp only [Js.run_db, Js.run_sent, addAttendance_apply, removeAttendance_apply, hv, hu,
    Bool.not_true, Bool.or_self, Bool.false_eq_true, if_false, if_true]
  exact ⟨addAttendanceCore_db_indep f _ _ db _, addAttendanceCore_sent_some f _ _ db _,
    removeAttendanceCore_db_indep f _ _ db _, removeAttendanceCore_sent_some f _ _ db _⟩

/-- C10 witness: without a session, adding `biz-1` for user 1 on the empty store still
inserts the venue and the pairing. -/
theorem unauthenticated_request_still_executes_witness :
    ((addAttendance noFaults false ⟨some "biz-1", some 1⟩).run emptyDb).db.tables =
        ⟨[], [⟨1, some "biz-1"⟩], [⟨some 1, 1⟩]⟩ ∧
      (((addAttendance noFaults false ⟨some "biz-1", some 1⟩).run emptyDb).db =
          ((addAttendance noFaults true ⟨some "biz-1", some 1⟩).run emptyDb).db ∧
        ((addAttendance noFaults false ⟨some "biz-1", some 1⟩).run emptyDb).sent =
          some ⟨200, pleaseLogin⟩ ∧
        ((removeAttendance noFaults false ⟨some "biz-1", some 1⟩).run emptyDb).db =
          ((removeAttendance noFaults true ⟨some "biz-1", some 1⟩).run emptyDb).db ∧
        ((removeAttendance noFaults false ⟨some "biz-1", some 1⟩).run emptyDb).sent =
          some ⟨200, pleaseLogin⟩) :=
  ⟨by decide,
    unauthenticated_request_still_executes noFaults emptyDb ⟨some "biz-1", some 1⟩
      (by decide) (by decide)⟩

/-- C2. `POST /api/venue-remove` on the empty store, for user 1 and the unknown venue
`biz-1`: the lookup returns no row, reading `rows[0].venue_id` throws, and the handler
answers `removeSuccessful: false` with the error instead of `removeSuccessful: true`. -/
theorem removeAttendance_unknown_venue_responds_failure :
    (removeAttendance noFaults true ⟨some "biz-1", some 1⟩).run emptyDb =
      ⟨emptyDb, some ⟨200, .removeFailed .typeError⟩, none⟩ := by
  decide

/-- C3. `GET /api/number-attending/biz-1` on the empty store: the lookup returns no row,
reading `rows[0].venue_id` throws, and the handler answers
`countAttendeesSuccessful: false` with the error instead of a count of 0. -/
theorem countAttendees_unknown_venue_responds_failure :
    (countAttendees noFaults true "biz-1").run emptyDb =
      ⟨emptyDb, some ⟨200, .countFailed .typeError⟩, none⟩ := by
  decide

/-- C9. In the store where `alice` (user 1) attends `biz-1`, a GitHub login as `alice`
passes the query result object to `done`; with that handle `GET /api/current-session`
reports `userId` 1 and an empty `venuesAttendingIds`, although user 1 attends `biz-1`. -/
theorem currentSession_github_existing_user_loses_venues :
    (githubVerify noFaults tagBcrypt "alice").eval aliceDb =
        (.ok (.accept (.result [⟨1, "alice", "hash"⟩])), aliceDb) ∧
      (currentSession noFaults (some (.result [⟨1, "alice", "hash"⟩]))).run aliceDb =
        ⟨aliceDb, some ⟨200, .loggedIn 1 "alice" []⟩, none⟩ ∧
      getVenuesAttendingIds noFaults aliceDb (some 1) = .ok [some "biz-1"] :=
  ⟨rfl, by decide, rfl⟩

/-- C1 counterexample: on the empty store, adding `biz-1` for user 1 twice leaves two
`users_venues` rows pairing user 1 with the venue `biz-1`, not one. -/
theorem addAttendance_twice_leaves_two_rows :
    ((addAttendance noFaults true ⟨some "biz-1", some 1⟩).run
        ((addAttendance noFaults true ⟨some "biz-1", some 1⟩).run emptyDb).db).db.tables =
        ⟨[], [⟨1, some "biz-1"⟩], [⟨some 1, 1⟩, ⟨some 1, 1⟩]⟩ ∧
      (((addAttendance noFaults true ⟨some "biz-1", some 1⟩).run
        ((addAttendance noFaults true ⟨some "biz-1", some 1⟩).run emptyDb).db).db.tables.attendanceRows
          1 "biz-1").length ≠ 1 := by
  decide

/-- C7 counterexample: after a first GitHub login of `octocat` on the empty store, the local
strategy accepts the username `octocat` with the plaintext password `octocat`. -/
theorem github_user_password_is_usable :
    ∃ password user,
      localVerify noFaults tagBcrypt
        ((githubVerify noFaults tagBcrypt "octocat").eval emptyDb).2 "octocat" password =
        .accept user :=
  ⟨"octocat", .row ⟨1, "octocat", "$2b$octocat"⟩, by decide⟩

theorem selectUserByUsername_ne_nil (t : Tables) (username : String)
    (h : ∃ r ∈ t.users, r.username = username) : t.selectUserByUsername username ≠ [] := by
  obtain ⟨r, hr, hname⟩ := h
  intro hnil
  have hmem : r ∈ t.selectUserByUsername username := by
    simp [Tables.selectUserByUsername, List.mem_filter, hr, hname]
  rw [hnil] at hmem
  cases hmem

/-- C5. `POST /api/register` with non-empty username and password, the username already in
`users`, and the lookup executed: the handler answers status 200 with the error "Please
select another username", and the store (so the `users` table) is unchanged. -/
theorem register_existing_username (f : Faults) (B : Bcrypt) (db : Db)
    (username password : String) (hu : username ≠ "") (hp : password ≠ "")
    (hex : ∃ r ∈ db.tables.users, r.username = username)
    (hf : f .selectUserByUsername = false) :
    (register f B ⟨some username, some password⟩).run db =
      ⟨db, some ⟨200, .error "Please select another username"⟩, none⟩ := by
  have hne := selectUserByUsername_ne_nil db.tables username hex
  rcases hl : db.tables.selectUserByUsername username with _ | ⟨r, l⟩
  · exact absurd hl hne
  · simp [register, Js.run, hu, hp, bind, Js.bind, selectUserByUsername, hf, World.cur, hl,
      resJson]

/-- C5 witness: registering `alice` twice from the empty store; the first call creates the
row and answers 201, the second answers 200 with the error and creates no second row. -/
theorem register_existing_username_witness :
    (register noFaults tagBcrypt ⟨some "alice", some "pw1234"⟩).run emptyDb =
        ⟨⟨⟨[⟨1, "alice", "$2b$pw1234"⟩], [], []⟩, 2, 1⟩,
          some ⟨201, .message "User created successfully"⟩, none⟩ ∧
      (register noFaults tagBcrypt ⟨some "alice", some "pw1234"⟩).run
          ⟨⟨[⟨1, "alice", "$2b$pw1234"⟩], [], []⟩, 2, 1⟩ =
        ⟨⟨⟨[⟨1, "alice", "$2b$pw1234"⟩], [], []⟩, 2, 1⟩,
          some ⟨200, .error "Please select another username"⟩, none⟩ :=
  ⟨by decide,
    register_existing_username noFaults tagBcrypt ⟨⟨[⟨1, "alice", "$2b$pw1234"⟩], [], []⟩, 2, 1⟩
      "alice" "pw1234" (by decide) (by decide) ⟨⟨1, "alice", "$2b$pw1234"⟩, by decide, rfl⟩ rfl⟩

/-- C7 (amended). A first GitHub login with a username absent from `users`, the lookup and
the insert executed: exactly one row with that username is created, the login is accepted
with that row, and the stored hash is the bcrypt hash of the username itself, so the local
strategy accepts that username with the username as plaintext password. -/
theorem github_first_login_stores_username_as_password (f g : Faults) (B : Bcrypt) (db : Db)
    (username : String) (habs : db.tables.selectUserByUsername username = [])
    (hs : f .selectUserByUsername = false) (hi : f .insertUser = false)
    (hg : g .selectUserByUsername = false) :
    ((githubVerify f B username).eval db).1 =
        .ok (.accept (.row ⟨db.users_seq, username, B.hashSync username 12⟩)) ∧
      ((githubVerify f B username).eval db).2.tables.users =
        db.tables.users ++ [⟨db.users_seq, username, B.hashSync username 12⟩] ∧
      ((githubVerify f B username).eval db).2.tables.selectUserByUsername username =
        [⟨db.users_seq, username, B.hashSync username 12⟩] ∧
      localVerify g B ((githubVerify f B username).eval db).2 username username =
        .accept (.row ⟨db.users_seq, username, B.hashSync username 12⟩) := by
  have hev : githubVerify f B username ⟨db, none, none⟩ =
      (.ok (.accept (.row ⟨db.users_seq, username, B.hashSync username 12⟩)),
        ⟨{ db with
            tables := db.tables.insertUser ⟨db.users_seq, username, B.hashSync username 12⟩,
            users_seq := db.users_seq + 1 }, none, none⟩) := by
    simp [githubVerify, bind, Js.bind, selectUserByUsername, hs, World.cur, habs,
      insertNewUserIntoDb, Js.tryCatch, insertUser, hi, World.write, pure, Js.pure]
  have hsel : (db.tables.insertUser
      ⟨db.users_seq, username, B.hashSync username 12⟩).selectUserByUsername username =
      [⟨db.users_seq, username, B.hashSync username 12⟩] := by
    unfold Tables.selectUserByUsername at habs ⊢
    simp [Tables.insertUser, List.filter_append, habs]
  refine ⟨?_, ?_, ?_, ?_⟩
  · simp [Js.eval, hev]
  · simp [Js.eval, hev, Tables.insertUser]
  · simp only [Js.eval, hev]
    exact hsel
  · simp only [localVerify, Js.eval, hev, hg, hsel]
    simp [B.compare_hash]

/-- C7 witness: first GitHub login of `octocat` on the empty store. -/
theorem github_first_login_stores_username_as_password_witness :
    ((githubVerify noFaults tagBcrypt "octocat").eval emptyDb).1 =
        .ok (.accept (.row ⟨1, "octocat", "$2b$octocat"⟩)) ∧
      ((githubVerify noFaults tagBcrypt "octocat").eval emptyDb).2.tables.users =
        [] ++ [⟨1, "octocat", "$2b$octocat"⟩] ∧
      ((githubVerify noFaults tagBcrypt "octocat").eval
          emptyDb).2.tables.selectUserByUsername "octocat" =
        [⟨1, "octocat", "$2b$octocat"⟩] ∧
      localVerify noFaults tagBcrypt ((githubVerify noFaults tagBcrypt "octocat").eval emptyDb).2
          "octocat" "octocat" =
        .accept (.row ⟨1, "octocat", "$2b$octocat"⟩) :=
  github_first_login_stores_username_as_password noFaults noFaults tagBcrypt emptyDb "octocat"
    rfl rfl rfl rfl

theorem updatedSearchPrice_default (searchPrice : JsVal)
    (h1 : searchPrice ≠ .int 1) (h2 : searchPrice ≠ .int 2) (h3 : searchPrice ≠ .int 3) :
    updatedSearchPrice searchPrice = "&price=1&price=2&price=3&price=4" := by
  unfold updatedSearchPrice
  split <;> first | rfl | contradiction

/-- C8. For every `searchPrice`, the upstream search URL carries the rendering of a list of
price levels inside {1,2,3,4}: the levels 1..n when `searchPrice` is the number n with
1 ≤ n ≤ 4, and all four levels for every other value (missing, not a number, out of
range). -/
theorem yelp_price_levels (searchPrice : JsVal)
    (locationSearchTerm searchOffset searchIsOpenNow searchSortBy : String) :
    ∃ levels : List Nat,
      yelpSearchUrl locationSearchTerm searchOffset searchIsOpenNow searchSortBy searchPrice =
        "https://api.yelp.com/v3/businesses/search?location=" ++ locationSearchTerm ++
          priceQuery levels ++ "&open_now=" ++ searchIsOpenNow ++ "&sort_by=" ++
          searchSortBy ++ "&limit=5&offset=" ++ searchOffset ∧
      levels ⊆ [1, 2, 3, 4] ∧
      (∀ n : Nat, 1 ≤ n → n ≤ 4 → searchPrice = .int n → levels = (List.range n).map (fun i => i + 1)) ∧
      ((∀ n : Nat, 1 ≤ n → n ≤ 4 → searchPrice ≠ .int n) → levels = [1, 2, 3, 4]) := by
  by_cases h1 : searchPrice = .int 1
  · refine ⟨[1], by rw [h1]; rfl, by decide, ?_, ?_⟩
    · intro n _ _ hn
      rw [h1] at hn
      have : n = 1 := by simpa using hn.symm
      subst this
      rfl
    · intro h
      exact absurd h1 (h 1 (by decide) (by decide))
  by_cases h2 : searchPrice = .int 2
  · refine ⟨[1, 2], by rw [h2]; rfl, by decide, ?_, ?_⟩
    · intro n _ _ hn
      rw [h2] at hn
      have : n = 2 := by
        have := JsVal.int.inj hn
        omega
      subst this
      rfl
    · intro h
      exact absurd h2 (h 2 (by decide) (by decide))
  by_cases h3 : searchPrice = .int 3
  · refine ⟨[1, 2, 3], by rw [h3]; rfl, by decide, ?_, ?_⟩
    · intro n _ _ hn
      rw [h3] at hn
      have : n = 3 := by
        have := JsVal.int.inj hn
        omega
      subst this
      rfl
    · intro h
      exact absurd h3 (h 3 (by decide) (by decide))
  refine ⟨[1, 2, 3, 4], ?_, by decide, ?_, fun _ => rfl⟩
  · unfold yelpSearchUrl
    rw [updatedSearchPrice_default searchPrice h1 h2 h3]
    rfl
  · intro n hn1 hn4 hn
    have hcases : n = 1 ∨ n = 2 ∨ n = 3 ∨ n = 4 := by omega
    rcases hcases with h | h | h | h
    · subst h; exact absurd hn h1
    · subst h; exact absurd hn h2
    · subst h; exact absurd hn h3
    · subst h; rfl

/-- C8 witness: `searchPrice` 2 sends the levels 1 and 2; a missing `searchPrice` sends all
four. -/
theorem yelp_price_levels_witness :
    yelpSearchUrl "paris" "0" "true" "best_match" (.int 2) =
        "https://api.yelp.com/v3/businesses/search?location=paris&price=1&price=2&open_now=true&sort_by=best_match&limit=5&offset=0" ∧
      updatedSearchPrice .undefined = priceQuery [1, 2, 3, 4] ∧
      ∃ levels : List Nat,
        yelpSearchUrl "paris" "0" "true" "best_match" (.int 2) =
          "https://api.yelp.com/v3/businesses/search?location=" ++ "paris" ++
            priceQuery levels ++ "&open_now=" ++ "true" ++ "&sort_by=" ++
            "best_match" ++ "&limit=5&offset=" ++ "0" ∧
        levels ⊆ [1, 2, 3, 4] ∧
        (∀ n : Nat, 1 ≤ n → n ≤ 4 → JsVal.int 2 = .int n → levels = (List.range n).map (fun i => i + 1)) ∧
        ((∀ n : Nat, 1 ≤ n → n ≤ 4 → JsVal.int 2 ≠ .int n) → levels = [1, 2, 3, 4]) :=
  ⟨by decide, by decide, yelp_price_levels (.int 2) "paris" "0" "true" "best_match"⟩

theorem addRejected_noFaults (db : Db) (y : Option String) : addRejected noFaults db y = false := by
  simp [addRejected, noFaults]

/-- When nothing is rejected and both fields are present, the handler commits
`db.afterAdd`, logged in or not. -/
theorem addAttendance_run_db_committed (f : Faults) (auth : Bool) (body : AttendBody) (db : Db)
    (hc : f .connect = false) (h : addRejected f db body.venueYelpId = false) :
    ((addAttendance f auth body).run db).db = db.afterAdd body.venueYelpId body.userId ∨
      (auth = false ∧ (!truthyStr body.venueYelpId || !truthyNum body.userId) = true) := by
  rw [Js.run_db, addAttendance_apply]
  cases auth <;> cases ht : (!truthyStr body.venueYelpId || !truthyNum body.userId) <;>
    simp only [ht, if_true, if_false, Bool.false_eq_true]
  · left
    rw [addAttendanceCore_db_indep, addAttendanceCore_committed_none f _ _ db hc h]
  · simp
  · left
    rw [addAttendanceCore_committed_none f _ _ db hc h]
  · left
    rw [addAttendanceCore_db_indep, addAttendanceCore_committed_none f _ _ db hc h]

/-- An `insertSuccessful: true` answer means the transaction was committed. -/
theorem addAttendance_success_db (f : Faults) (auth : Bool) (body : AttendBody) (db : Db)
    (m : String)
    (h : ((addAttendance f auth body).run db).sent = some ⟨200, .insertSuccessful m⟩) :
    ((addAttendance f auth body).run db).db = db.afterAdd body.venueYelpId body.userId := by
  have hs := h
  rw [Js.run_sent, addAttendance_apply] at hs
  cases auth <;> cases ht : (!truthyStr body.venueYelpId || !truthyNum body.userId) <;>
    simp only [ht, if_true, if_false, Bool.false_eq_true] at hs
  · rw [addAttendanceCore_sent_some] at hs
    simp [pleaseLogin] at hs
  · simp [pleaseLogin] at hs
  · cases hc : f .connect
    · cases hr : addRejected f db body.venueYelpId
      · rcases addAttendance_run_db_committed f true body db hc hr with h1 | ⟨h1, _⟩
        · exact h1
        · cases h1
      · obtain ⟨db1, _, hall⟩ := addAttendanceCore_rejected f body.venueYelpId body.userId db hc hr
        obtain ⟨r, txn1, s1, h1, h2⟩ := hall none
        rw [h1] at hs
        rcases h2 with h2 | ⟨_, st, h2⟩
        · simp at hs
          rw [h2] at hs
          cases hs
        · simp at hs
          rw [h2] at hs
          cases hs
    · rw [addAttendanceCore_connect f _ _ _ hc] at hs
      cases hs
  · rw [addAttendanceCore_sent_some] at hs
    simp [dataNotReceived] at hs

theorem sqlEq_some_right {α : Type} [DecidableEq α] (a : Option α) (b : α) :
    sqlEq a (some b) = true ↔ a = some b := by
  cases a <;> simp [sqlEq]

theorem mem_selectVenueByYelpId (t : Tables) (v : String) (vid : Nat) :
    vid ∈ t.selectVenueByYelpId (some v) ↔
      ∃ vn ∈ t.venues, vn.venue_yelp_id = some v ∧ vn.venue_id = vid := by
  simp [Tables.selectVenueByYelpId, List.mem_map, List.mem_filter, sqlEq_some_right, and_assoc]

/-- The store committed by an add when the lookup found exactly one venue row. -/
theorem Db.afterAdd_found (db : Db) (y : Option String) (u : Option Nat) (vid : Nat)
    (hl : db.tables.selectVenueByYelpId y = [vid]) :
    db.afterAdd y u = { db with tables := db.tables.insertUsersVenues u vid } := by
  simp [Db.afterAdd, hl]

/-- The store committed by an add when the lookup did not find exactly one venue row. -/
theorem Db.afterAdd_created (db : Db) (y : Option String) (u : Option Nat)
    (hl : ¬ ∃ vid, db.tables.selectVenueByYelpId y = [vid]) :
    db.afterAdd y u =
      { db with
        tables := (db.tables.insertVenue ⟨db.venues_seq, y⟩).insertUsersVenues u db.venues_seq,
        venues_seq := db.venues_seq + 1 } := by
  unfold Db.afterAdd
  rcases h : db.tables.selectVenueByYelpId y with _ | ⟨a, _ | ⟨b, l⟩⟩
  · rfl
  · exact absurd ⟨a, h⟩ hl
  · rfl

/-- Each committed add appends one row pairing `u` with a venue whose `venue_yelp_id` is
`v`, whatever rows were there before, and keeps the keys below the sequence. -/
theorem attendanceRows_afterAdd (db : Db) (u : Nat) (v : String) (hk : db.KeysIssued) :
    ((db.afterAdd (some v) (some u)).tables.attendanceRows u v).length =
        (db.tables.attendanceRows u v).length + 1 ∧
      (db.afterAdd (some v) (some u)).KeysIssued := by
  obtain ⟨hkv, hkr⟩ := hk
  by_cases hl : ∃ vid, db.tables.selectVenueByYelpId (some v) = [vid]
  · obtain ⟨vid, hl⟩ := hl
    have hmem : vid ∈ db.tables.selectVenueByYelpId (some v) := by simp [hl]
    obtain ⟨vn, hvn, hy, hid⟩ := (mem_selectVenueByYelpId _ _ _).mp hmem
    have hany : (db.tables.venues.any fun vn =>
        decide (vn.venue_id = vid) && decide (vn.venue_yelp_id = some v)) = true := by
      rw [List.any_eq_true]
      exact ⟨vn, hvn, by simp [hy, hid]⟩
    rw [Db.afterAdd_found db _ _ vid hl]
    refine ⟨?_, ?_, ?_⟩
    · simp [Tables.attendanceRows, Tables.insertUsersVenues, List.filter_append, hany]
    · exact hkv
    · intro r hr
      simp only [Tables.insertUsersVenues, List.mem_append, List.mem_singleton] at hr
      rcases hr with hr | hr
      · exact hkr r hr
      · rw [hr]
        exact hid ▸ hkv vn hvn
  · rw [Db.afterAdd_created db _ _ hl]
    refine ⟨?_, ?_, ?_⟩
    · simp only [Tables.attendanceRows, Tables.insertUsersVenues, Tables.insertVenue,
        List.filter_append, List.length_append]
      congr 1
      · congr 1
        apply List.filter_congr
        intro r hr
        have hlt := hkr r hr
        have hne : ¬ db.venues_seq = r.venue_id := by omega
        simp [List.any_append, hne]
      · simp [List.any_append]
    · intro vn hvn
      simp only [Tables.insertUsersVenues, Tables.insertVenue, List.mem_append,
        List.mem_singleton] at hvn
      rcases hvn with hvn | hvn
      · exact Nat.lt_succ_of_lt (hkv vn hvn)
      · rw [hvn]
        exact Nat.lt_succ_self _
    · intro r hr
      simp only [Tables.insertUsersVenues, Tables.insertVenue, List.mem_append,
        List.mem_singleton] at hr
      rcases hr with hr | hr
      · exact Nat.lt_succ_of_lt (hkr r hr)
      · rw [hr]
        exact Nat.lt_succ_self _

/-- C1 (amended). For every store whose venue keys were handed out by the sequence, every
non-empty `u` and `v`, logged in or not, when the storage rejects no statement: running
`POST /api/venues-attending` with (`u`, `v`) twice leaves exactly n + 2 `users_venues` rows
pairing `u` with a venue whose `venue_yelp_id` is `v`, n being their number before; the
second call adds a second row. -/
theorem addAttendance_twice_adds_two_rows (auth1 auth2 : Bool) (db : Db) (u : Nat)
    (v : String) (hu : u ≠ 0) (hv : v ≠ "") (hk : db.KeysIssued) :
    (((addAttendance noFaults auth2 ⟨some v, some u⟩).run
        ((addAttendance noFaults auth1 ⟨some v, some u⟩).run db).db).db.tables.attendanceRows
          u v).length =
      (db.tables.attendanceRows u v).length + 2 := by
  have hrun : ∀ (auth : Bool) (d : Db),
      ((addAttendance noFaults auth ⟨some v, some u⟩).run d).db =
        d.afterAdd (some v) (some u) := by
    intro auth d
    rcases addAttendance_run_db_committed noFaults auth ⟨some v, some u⟩ d rfl
      (addRejected_noFaults d _) with h | ⟨_, h⟩
    · exact h
    · simp [truthyStr, truthyNum, hu, hv] at h
  rw [hrun, hrun]
  obtain ⟨h1, hk1⟩ := attendanceRows_afterAdd db u v hk
  obtain ⟨h2, _⟩ := attendanceRows_afterAdd _ u v hk1
  rw [h2, h1]

/-- C1 witness: in the store where user 1 already has one row for `biz-1`, two more adds
leave three rows. -/
theorem addAttendance_twice_adds_two_rows_witness :
    (aliceDb.tables.attendanceRows 1 "biz-1").length = 1 ∧
      (((addAttendance noFaults true ⟨some "biz-1", some 1⟩).run
          ((addAttendance noFaults true ⟨some "biz-1", some 1⟩).run
            aliceDb).db).db.tables.attendanceRows 1 "biz-1").length =
        (aliceDb.tables.attendanceRows 1 "biz-1").length + 2 :=
  ⟨by decide,
    addAttendance_twice_adds_two_rows true true aliceDb 1 "biz-1" (by decide) (by decide)
      (by decide)⟩

/-- A `removeSuccessful: true` answer means the delete for the first venue row found was
committed. -/
theorem removeAttendance_success_db (f : Faults) (auth : Bool) (body : AttendBody) (db : Db)
    (m : String)
    (h : ((removeAttendance f auth body).run db).sent = some ⟨200, .removeSuccessful m⟩) :
    ∃ vid l, db.tables.selectVenueByYelpId body.venueYelpId = vid :: l ∧
      ((removeAttendance f auth body).run db).db =
        { db with tables := db.tables.deleteUsersVenues body.userId vid } := by
  have hs := h
  rw [Js.run_sent, removeAttendance_apply] at hs
  rw [Js.run_db, removeAttendance_apply]
  cases auth <;> cases ht : (!truthyStr body.venueYelpId || !truthyNum body.userId) <;>
    simp only [ht, if_true, if_false, Bool.false_eq_true] at hs ⊢
  · rw [removeAttendanceCore_sent_some] at hs
    simp [pleaseLogin] at hs
  · simp [resJson, pleaseLogin] at hs
  · cases hc : f .connect
    · rcases removeAttendanceTry_shape f body.venueYelpId body.userId db with
        ⟨e, txn1, htry⟩ | ⟨vid, l, hl, htry⟩
      · exfalso
        cases hr : f .rollback <;>
          simp [removeAttendanceCore, Js.bind, connect, hc, Js.tryCatch, htry,
            removeAttendanceCatch_eval, hr, resJson] at hs
      · refine ⟨vid, l, hl, ?_⟩
        simp [removeAttendanceCore, Js.bind, connect, hc, Js.tryCatch, htry, resJson]
    · simp [removeAttendanceCore, Js.bind, connect, hc] at hs
  · simp [resJson, dataNotReceived] at hs

theorem sqlEq_some_some {α : Type} [DecidableEq α] (a b : α) :
    sqlEq (some a) (some b) = decide (a = b) := rfl

theorem selectVenuesAttending_eq_nil_iff (t : Tables) (u : Nat) :
    t.selectVenuesAttending (some u) = [] ↔
      ∀ vn ∈ t.venues, ∀ r ∈ t.users_venues, vn.venue_id = r.venue_id → r.user_id ≠ some u := by
  simp only [Tables.selectVenuesAttending, List.flatMap_eq_nil_iff, List.map_eq_nil_iff,
    List.filter_eq_nil_iff, Bool.and_eq_true, decide_eq_true_eq, sqlEq_some_right, not_and]

/-- With unique keys, a join that is empty outside one venue row is the piece of that row. -/
theorem flatMap_eq_of_unique_key {β : Type} (venues : List VenueRow) (g : VenueRow → List β)
    (vn0 : VenueRow) (hmem : vn0 ∈ venues)
    (hnodup : (venues.map (fun vn => vn.venue_id)).Nodup)
    (hg : ∀ vn ∈ venues, vn.venue_id ≠ vn0.venue_id → g vn = []) :
    venues.flatMap g = g vn0 := by
  induction venues with
  | nil => cases hmem
  | cons a l ih =>
    rw [List.map_cons, List.nodup_cons] at hnodup
    obtain ⟨hnot, hnd⟩ := hnodup
    rw [List.flatMap_cons]
    rcases List.mem_cons.mp hmem with h | h
    · subst h
      have hrest : l.flatMap g = [] := by
        rw [List.flatMap_eq_nil_iff]
        intro x hx
        apply hg x (List.mem_cons_of_mem _ hx)
        intro hid
        exact hnot (hid ▸ List.mem_map_of_mem (fun vn => vn.venue_id) hx)
      rw [hrest, List.append_nil]
    · have hne : a.venue_id ≠ vn0.venue_id := by
        intro hid
        exact hnot (hid ▸ List.mem_map_of_mem (fun vn => vn.venue_id) h)
      rw [hg a (List.mem_cons_self _ _) hne, List.nil_append]
      exact ih h hnd (fun vn hvn => hg vn (List.mem_cons_of_mem _ hvn))

/-- Unique `venue_yelp_id`: a lookup returns at most one row. -/
theorem selectVenueByYelpId_length_le_one (t : Tables) (v : String)
    (huniq : t.venues.Pairwise (fun a b => sqlEq a.venue_yelp_id b.venue_yelp_id = false)) :
    (t.selectVenueByYelpId (some v)).length ≤ 1 := by
  unfold Tables.selectVenueByYelpId
  rw [List.length_map]
  have hp := List.Pairwise.filter (fun vn => sqlEq vn.venue_yelp_id (some v)) huniq
  rcases hF : t.venues.filter (fun vn => sqlEq vn.venue_yelp_id (some v)) with
    _ | ⟨a, _ | ⟨b, l⟩⟩
  · rw [hF]; simp
  · rw [hF]; simp
  · exfalso
    rw [hF] at hp
    have hab : sqlEq a.venue_yelp_id b.venue_yelp_id = false :=
      (List.pairwise_cons.mp hp).1 b (List.mem_cons_self _ _)
    have ha : a ∈ t.venues.filter (fun vn => sqlEq vn.venue_yelp_id (some v)) := by
      rw [hF]; exact List.mem_cons_self _ _
    have hb : b ∈ t.venues.filter (fun vn => sqlEq vn.venue_yelp_id (some v)) := by
      rw [hF]; exact List.mem_cons_of_mem _ (List.mem_cons_self _ _)
    have ha2 := (sqlEq_some_right _ _).mp (List.mem_filter.mp ha).2
    have hb2 := (sqlEq_some_right _ _).mp (List.mem_filter.mp hb).2
    rw [ha2, hb2] at hab
    simp [sqlEq] at hab

/-- After a committed add for a user who attended nothing, the join lists exactly `v`. -/
theorem selectVenuesAttending_afterAdd (db : Db) (u : Nat) (v : String) (hwf : db.WF)
    (hempty : db.tables.selectVenuesAttending (some u) = []) :
    (db.afterAdd (some v) (some u)).tables.selectVenuesAttending (some u) = [some v] := by
  obtain ⟨⟨hkv, hkr⟩, hnodup, _⟩ := hwf
  rw [selectVenuesAttending_eq_nil_iff] at hempty
  have hold : ∀ vn ∈ db.tables.venues,
      db.tables.users_venues.filter
        (fun r => decide (vn.venue_id = r.venue_id) && sqlEq r.user_id (some u)) = [] := by
    intro vn hvn
    rw [List.filter_eq_nil_iff]
    intro r hr
    simp only [Bool.and_eq_true, decide_eq_true_eq, sqlEq_some_right, not_and]
    exact hempty vn hvn r hr
  by_cases hl : ∃ vid, db.tables.selectVenueByYelpId (some v) = [vid]
  · obtain ⟨vid, hl⟩ := hl
    have hmem : vid ∈ db.tables.selectVenueByYelpId (some v) := by simp [hl]
    obtain ⟨vn0, hvn0, hy, hid⟩ := (mem_selectVenueByYelpId _ _ _).mp hmem
    rw [Db.afterAdd_found db _ _ vid hl]
    simp only [Tables.selectVenuesAttending, Tables.insertUsersVenues]
    rw [flatMap_eq_of_unique_key db.tables.venues _ vn0 hvn0 hnodup]
    · rw [List.filter_append, hold vn0 hvn0]
      simp [hid, hy, sqlEq_some_some]
    · intro vn hvn hne
      have hne2 : ¬ vn.venue_id = vid := by rw [← hid]; exact hne
      rw [List.filter_append, hold vn hvn]
      simp [hne2]
  · rw [Db.afterAdd_created db _ _ hl]
    simp only [Tables.selectVenuesAttending, Tables.insertUsersVenues, Tables.insertVenue,
      List.flatMap_append, List.flatMap_singleton]
    have h1 : (db.tables.venues.flatMap fun v_1 =>
        List.map (fun _ => v_1.venue_yelp_id)
          (List.filter (fun r => decide (v_1.venue_id = r.venue_id) && sqlEq r.user_id (some u))
            (db.tables.users_venues ++ [⟨some u, db.venues_seq⟩]))) = [] := by
      rw [List.flatMap_eq_nil_iff]
      intro vn hvn
      have hne : ¬ vn.venue_id = db.venues_seq := Nat.ne_of_lt (hkv vn hvn)
      rw [List.filter_append, hold vn hvn]
      simp [hne]
    have h2 : db.tables.users_venues.filter
        (fun r => decide (db.venues_seq = r.venue_id) && sqlEq r.user_id (some u)) = [] := by
      rw [List.filter_eq_nil_iff]
      intro r hr
      have hne : ¬ db.venues_seq = r.venue_id := Nat.ne_of_gt (hkr r hr)
      simp [hne]
    rw [h1, List.filter_append, h2]
    simp [sqlEq_some_some]

/-- Removing what a committed add inserted empties the join again. -/
theorem selectVenuesAttending_afterAdd_remove (db : Db) (u : Nat) (v : String) (hwf : db.WF)
    (hempty : db.tables.selectVenuesAttending (some u) = []) (vid : Nat) (l : List Nat)
    (hsel : (db.afterAdd (some v) (some u)).tables.selectVenueByYelpId (some v) = vid :: l) :
    ((db.afterAdd (some v) (some u)).tables.deleteUsersVenues (some u)
      vid).selectVenuesAttending (some u) = [] := by
  obtain ⟨⟨hkv, hkr⟩, hnodup, huniq⟩ := hwf
  rw [selectVenuesAttending_eq_nil_iff] at hempty ⊢
  by_cases hl : ∃ vid0, db.tables.selectVenueByYelpId (some v) = [vid0]
  · obtain ⟨vid0, hl⟩ := hl
    rw [Db.afterAdd_found db _ _ vid0 hl] at hsel ⊢
    have hvid : vid = vid0 := by
      have h : db.tables.selectVenueByYelpId (some v) = vid :: l := hsel
      rw [hl] at h
      exact (List.cons.inj h).1.symm
    subst hvid
    intro vn hvn r hr
    simp only [Tables.deleteUsersVenues, Tables.insertUsersVenues, List.mem_filter,
      List.mem_append, List.mem_singleton] at hr hvn
    obtain ⟨hr1, hq⟩ := hr
    rcases hr1 with hr1 | hr1
    · exact hempty vn hvn r hr1
    · subst hr1
      simp [sqlEq_some_some] at hq
  · rw [Db.afterAdd_created db _ _ hl] at hsel ⊢
    have hold : db.tables.selectVenueByYelpId (some v) = [] := by
      have hle := selectVenueByYelpId_length_le_one db.tables v huniq
      rcases h : db.tables.selectVenueByYelpId (some v) with _ | ⟨a, _ | ⟨b, l2⟩⟩
      · rfl
      · exact absurd ⟨a, h⟩ hl
      · rw [h] at hle
        simp at hle
    have hvid : vid = db.venues_seq := by
      have h : (db.tables.selectVenueByYelpId (some v)) ++ [db.venues_seq] = vid :: l := by
        rw [← hsel]
        simp [Tables.selectVenueByYelpId, Tables.insertVenue, Tables.insertUsersVenues,
          List.filter_append, sqlEq_some_some]
      rw [hold] at h
      exact (List.cons.inj h).1.symm
    subst hvid
    intro vn hvn r hr
    simp only [Tables.deleteUsersVenues, Tables.insertUsersVenues, Tables.insertVenue,
      List.mem_filter, List.mem_append, List.mem_singleton] at hr hvn
    obtain ⟨hr1, hq⟩ := hr
    rcases hr1 with hr1 | hr1
    · rcases hvn with hvn | hvn
      · exact hempty vn hvn r hr1
      · subst hvn
        intro hid
        exact absurd hid (Nat.ne_of_gt (hkr r hr1))
    · subst hr1
      simp [sqlEq_some_some] at hq

/-- C6. For every store satisfying the data-model invariants in which
`getVenuesAttendingIds(u)` returns the empty list: after an add of `v` for `u` answered
`insertSuccessful: true`, `getVenuesAttendingIds(u)` returns exactly `[v]`; and after a
following remove of `v` for `u` answered `removeSuccessful: true`, it returns the empty
list again. -/
theorem add_then_remove_restores_empty_list (f1 f2 g : Faults) (auth1 auth2 : Bool) (db : Db)
    (u : Nat) (v : String) (hwf : db.WF)
    (hempty : getVenuesAttendingIds g db (some u) = .ok [])
    (hadd : ∃ m, ((addAttendance f1 auth1 ⟨some v, some u⟩).run db).sent =
      some ⟨200, .insertSuccessful m⟩) :
    getVenuesAttendingIds g ((addAttendance f1 auth1 ⟨some v, some u⟩).run db).db (some u) =
        .ok [some v] ∧
      ((∃ m, ((removeAttendance f2 auth2 ⟨some v, some u⟩).run
          ((addAttendance f1 auth1 ⟨some v, some u⟩).run db).db).sent =
            some ⟨200, .removeSuccessful m⟩) →
        getVenuesAttendingIds g
          ((removeAttendance f2 auth2 ⟨some v, some u⟩).run
            ((addAttendance f1 auth1 ⟨some v, some u⟩).run db).db).db (some u) = .ok []) := by
  obtain ⟨m1, hadd⟩ := hadd
  have hg : g .selectVenuesAttending = false := by
    cases hgv : g .selectVenuesAttending
    · rfl
    · simp [getVenuesAttendingIds, hgv] at hempty
  have hjoin : db.tables.selectVenuesAttending (some u) = [] := by
    simpa [getVenuesAttendingIds, hg] using hempty
  rw [addAttendance_success_db f1 auth1 _ db m1 hadd]
  constructor
  · simp [getVenuesAttendingIds, hg, selectVenuesAttending_afterAdd db u v hwf hjoin]
  · rintro ⟨m2, hrem⟩
    obtain ⟨vid, l, hsel, hdb⟩ := removeAttendance_success_db f2 auth2 _ _ m2 hrem
    rw [hdb]
    simp [getVenuesAttendingIds, hg,
      selectVenuesAttending_afterAdd_remove db u v hwf hjoin vid l hsel]

/-- C6 witness: on the empty store, add `biz-1` for user 1, then remove it. -/
theorem add_then_remove_restores_empty_list_witness :
    ((addAttendance noFaults true ⟨some "biz-1", some 1⟩).run emptyDb).sent =
        some ⟨200, .insertSuccessful "Successfully inserted venue with id biz-1 into database"⟩ ∧
      ((removeAttendance noFaults true ⟨some "biz-1", some 1⟩).run
          ((addAttendance noFaults true ⟨some "biz-1", some 1⟩).run emptyDb).db).sent =
        some ⟨200, .removeSuccessful "Successfully removed venue with id biz-1 from database"⟩ ∧
      (getVenuesAttendingIds noFaults
          ((addAttendance noFaults true ⟨some "biz-1", some 1⟩).run emptyDb).db (some 1) =
          .ok [some "biz-1"] ∧
        ((∃ m, ((removeAttendance noFaults true ⟨some "biz-1", some 1⟩).run
            ((addAttendance noFaults true ⟨some "biz-1", some 1⟩).run emptyDb).db).sent =
              some ⟨200, .removeSuccessful m⟩) →
          getVenuesAttendingIds noFaults
            ((removeAttendance noFaults true ⟨some "biz-1", some 1⟩).run
              ((addAttendance noFaults true ⟨some "biz-1", some 1⟩).run emptyDb).db).db
            (some 1) = .ok [])) :=
  ⟨by decide, by decide,
    add_then_remove_restores_empty_list noFaults noFaults noFaults true true emptyDb 1 "biz-1"
      (by decide) rfl
      ⟨"Successfully inserted venue with id biz-1 into database", by decide⟩⟩

/-- The empty store satisfies the data-model invariants. -/
theorem emptyDb_WF : emptyDb.WF := by decide

/-- The invariants only look at the tables and want the sequence ahead of them. -/
theorem Db.WF_of_tables_eq (db d : Db) (ht : d.tables = db.tables)
    (hseq : db.venues_seq ≤ d.venues_seq) (hwf : db.WF) : d.WF := by
  obtain ⟨⟨hkv, hkr⟩, hnodup, huniq⟩ := hwf
  unfold Db.WF Db.KeysIssued
  rw [ht]
  exact ⟨⟨fun vn hvn => Nat.lt_of_lt_of_le (hkv vn hvn) hseq,
    fun r hr => Nat.lt_of_lt_of_le (hkr r hr) hseq⟩, hnodup, huniq⟩

theorem mem_selectVenueByYelpId_of_sqlEq (t : Tables) (y : Option String) (vn : VenueRow)
    (hvn : vn ∈ t.venues) (h : sqlEq vn.venue_yelp_id y = true) :
    vn.venue_id ∈ t.selectVenueByYelpId y := by
  unfold Tables.selectVenueByYelpId
  exact List.mem_map_of_mem _ (List.mem_filter.mpr ⟨hvn, h⟩)

theorem sqlEq_trans_false {a b c : Option String} (hab : sqlEq a b = false)
    (hbc : sqlEq b c = true) : sqlEq a c = false := by
  cases a <;> cases b <;> cases c <;> simp_all [sqlEq]

/-- A committed add keeps the data-model invariants: a venue row is created only when the
lookup found none. -/
theorem Db.WF_afterAdd (db : Db) (y : Option String) (u : Option Nat) (hwf : db.WF) :
    (db.afterAdd y u).WF := by
  obtain ⟨⟨hkv, hkr⟩, hnodup, huniq⟩ := hwf
  by_cases hl : ∃ vid, db.tables.selectVenueByYelpId y = [vid]
  · obtain ⟨vid, hl⟩ := hl
    have hmem : vid ∈ db.tables.selectVenueByYelpId y := by simp [hl]
    unfold Tables.selectVenueByYelpId at hmem
    obtain ⟨vn, hvn, hid⟩ := List.mem_map.mp hmem
    rw [Db.afterAdd_found db _ _ vid hl]
    refine ⟨⟨hkv, ?_⟩, hnodup, huniq⟩
    intro r hr
    simp only [Tables.insertUsersVenues, List.mem_append, List.mem_singleton] at hr
    rcases hr with hr | hr
    · exact hkr r hr
    · rw [hr]
      exact hid ▸ hkv vn (List.mem_filter.mp hvn).1
  · have hnone : ∀ vn ∈ db.tables.venues, sqlEq vn.venue_yelp_id y = false := by
      intro vn hvn
      cases hsq : sqlEq vn.venue_yelp_id y
      · rfl
      · exfalso
        have hm := mem_selectVenueByYelpId_of_sqlEq db.tables y vn hvn hsq
        rcases hsel : db.tables.selectVenueByYelpId y with _ | ⟨a, _ | ⟨b, l⟩⟩
        · rw [hsel] at hm
          cases hm
        · exact hl ⟨a, hsel⟩
        · have hle : (db.tables.selectVenueByYelpId y).length ≤ 1 := by
            unfold Tables.selectVenueByYelpId
            rw [List.length_map]
            have hp := List.Pairwise.filter (fun w => sqlEq w.venue_yelp_id y) huniq
            rcases hF : db.tables.venues.filter (fun w => sqlEq w.venue_yelp_id y) with
              _ | ⟨p, _ | ⟨q, l2⟩⟩
            · rw [hF]; simp
            · rw [hF]; simp
            · exfalso
              rw [hF] at hp
              have hpq : sqlEq p.venue_yelp_id q.venue_yelp_id = false :=
                (List.pairwise_cons.mp hp).1 q (List.mem_cons_self _ _)
              have hp1 : p ∈ db.tables.venues.filter (fun w => sqlEq w.venue_yelp_id y) := by
                rw [hF]; exact List.mem_cons_self _ _
              have hq1 : q ∈ db.tables.venues.filter (fun w => sqlEq w.venue_yelp_id y) := by
                rw [hF]; exact List.mem_cons_of_mem _ (List.mem_cons_self _ _)
              have hp2 := (List.mem_filter.mp hp1).2
              have hq2 := (List.mem_filter.mp hq1).2
              cases hpy : p.venue_yelp_id <;> cases hqy : q.venue_yelp_id <;> cases y <;>
                simp_all [sqlEq]
          rw [hsel] at hle
          simp at hle
    rw [Db.afterAdd_created db _ _ hl]
    refine ⟨⟨?_, ?_⟩, ?_, ?_⟩
    · intro vn hvn
      simp only [Tables.insertUsersVenues, Tables.insertVenue, List.mem_append,
        List.mem_singleton] at hvn
      rcases hvn with hvn | hvn
      · exact Nat.lt_succ_of_lt (hkv vn hvn)
      · rw [hvn]
        exact Nat.lt_succ_self _
    · intro r hr
      simp only [Tables.insertUsersVenues, Tables.insertVenue, List.mem_append,
        List.mem_singleton] at hr
      rcases hr with hr | hr
      · exact Nat.lt_succ_of_lt (hkr r hr)
      · rw [hr]
        exact Nat.lt_succ_self _
    · simp only [Tables.insertUsersVenues, Tables.insertVenue, List.map_append, List.map_cons,
        List.map_nil]
      rw [List.nodup_append]
      refine ⟨hnodup, by simp, ?_⟩
      intro a ha hb
      simp only [List.mem_singleton] at hb
      obtain ⟨vn, hvn, hid⟩ := List.mem_map.mp ha
      have := hkv vn hvn
      omega
    · simp only [Tables.insertUsersVenues, Tables.insertVenue]
      rw [List.pairwise_append]
      refine ⟨huniq, by simp, ?_⟩
      intro a ha b hb
      simp only [List.mem_singleton] at hb
      rw [hb]
      exact hnone a ha

/-- Invariant: whatever is rejected, `POST /api/venues-attending` leaves a store that
satisfies the data-model invariants. -/
theorem addAttendance_preserves_WF (f : Faults) (auth : Bool) (body : AttendBody) (db : Db)
    (hwf : db.WF) : ((addAttendance f auth body).run db).db.WF := by
  rw [Js.run_db, addAttendance_apply]
  have hcore : ∀ s : Option Response,
      (addAttendanceCore f body.venueYelpId body.userId ⟨db, none, s⟩).2.db.WF := by
    intro s
    rw [addAttendanceCore_db_indep]
    cases hc : f .connect
    · cases hr : addRejected f db body.venueYelpId
      · rw [addAttendanceCore_committed_none f _ _ db hc hr]
        exact Db.WF_afterAdd db _ _ hwf
      · obtain ⟨db1, ⟨ht, hseq⟩, hall⟩ :=
          addAttendanceCore_rejected f body.venueYelpId body.userId db hc hr
        obtain ⟨r, txn1, s1, h1, _⟩ := hall none
        rw [h1]
        exact Db.WF_of_tables_eq db db1 ht hseq hwf
    · rw [addAttendanceCore_connect f _ _ _ hc]
      exact hwf
  split_ifs
  · exact hcore _
  · exact hcore _
  · exact hwf
  · exact hcore _

/-- Invariant: `POST /api/venue-remove` leaves a store that satisfies the data-model
invariants. -/
theorem removeAttendance_preserves_WF (f : Faults) (auth : Bool) (body : AttendBody) (db : Db)
    (hwf : db.WF) : ((removeAttendance f auth body).run db).db.WF := by
  rw [Js.run_db, removeAttendance_apply]
  have hdel : ∀ vid, ({ db with tables := db.tables.deleteUsersVenues body.userId vid } : Db).WF := by
    intro vid
    obtain ⟨⟨hkv, hkr⟩, hnodup, huniq⟩ := hwf
    refine ⟨⟨hkv, ?_⟩, hnodup, huniq⟩
    intro r hr
    simp only [Tables.deleteUsersVenues, List.mem_filter] at hr
    exact hkr r hr.1
  have hcore : ∀ s : Option Response,
      (removeAttendanceCore f body.venueYelpId body.userId ⟨db, none, s⟩).2.db.WF := by
    intro s
    cases hc : f .connect
    · rcases removeAttendanceTry_shape f body.venueYelpId body.userId db with
        ⟨e, txn1, h⟩ | ⟨vid, l, _, h⟩ <;>
        cases hr : f .rollback <;> cases s <;>
        simp only [removeAttendanceCore, Js.bind, connect, hc, Js.tryCatch, h,
          removeAttendanceCatch_eval, hr, resJson, Bool.false_eq_true, if_false, if_true] <;>
        first
          | exact hwf
          | exact hdel vid
    · simp only [removeAttendanceCore, Js.bind, connect, hc, if_true]
      exact hwf
  split_ifs <;>
    first
      | exact hcore _
      | exact hwf

end Nightlife
